import Mathlib

/-!
Verification development for a conversational LLM front-end (`src/app.py`).

The app keeps a per-session conversation history in a process-wide store
(`st.session_state.history_store : dict sessionId -> InMemoryChatMessageHistory`),
assembles a prompt [system instruction, stored history, new human input] and
forwards it to a completion client through LangChain
`RunnableWithMessageHistory`; on success the wrapper appends the human input
and the assistant reply to the session history.

The embedding below is a state-passing translation: the mutable store becomes
an explicit value threaded through each operation, and the remote completion
client becomes a function parameter `llm` so that its outcome can be
quantified over.
-/

/-- Message roles as used by the LangChain prompt: `system`, `human`
("human" message type) and `assistant` ("ai" message type). -/
inductive Role where
  | system
  | human
  | assistant
deriving DecidableEq, Repr

/-- A chat message (also a stored conversation turn): a role tag and text. -/
structure Msg where
  role : Role
  text : String
deriving DecidableEq, Repr

/-- The conversation store `st.session_state.history_store`: a mapping from
session id to the session history; `none` means the key is absent from the
dict, `some h` means the key is present with message list `h`. -/
def Store : Type := String → Option (List Msg)

/-- Dict update: `store[sid] = h`. -/
def Store.set (store : Store) (sid : String) (h : List Msg) : Store :=
  fun k => if k = sid then some h else store k

/-- The store at process start: the empty dict. -/
def emptyStore : Store := fun _ => none

/-- Contents of a session history, reading an absent key as empty
(`InMemoryChatMessageHistory()` holds no messages). -/
def histOf (store : Store) (sid : String) : List Msg :=
  (store sid).getD []

/-- Python whitespace for `str.strip()`: the ASCII whitespace characters and
the Unicode space characters recognised by `str.isspace`. -/
def isPySpace (c : Char) : Bool :=
  c = ' ' || c = '\t' || c = '\n' || c = '\r' || c = '\x0b' || c = '\x0c' ||
  c.val = 0x1c || c.val = 0x1d || c.val = 0x1e || c.val = 0x1f ||
  c.val = 0x85 || c.val = 0xa0 || c.val = 0x1680 ||
  (0x2000 ≤ c.val && c.val ≤ 0x200a) ||
  c.val = 0x2028 || c.val = 0x2029 || c.val = 0x202f || c.val = 0x205f ||
  c.val = 0x3000

/-- Python `s.strip()`: remove leading and trailing whitespace. -/
def pyStrip (s : String) : String :=
  String.mk (((s.toList.dropWhile isPySpace).reverse.dropWhile isPySpace).reverse)

/-- `EXPERT_ROLES` (src/app.py lines 33-47): the fixed persona registry,
mapping role name to system-instruction text. -/
def EXPERT_ROLES : List (String × String) :=
  [("品質保証エンジニア（製造業）",
    "あなたは製造業の品質保証（QA）と統計的品質管理の専門家です。" ++
    "工程能力(Cp/Cpk)、不良モード、FMEA、QC七つ道具、PDCAに精通し、" ++
    "入力内容に対して根拠・手順・数式・注意点・現実的制約を併記しつつ、" ++
    "再現可能な改善策とチェックリストを提示してください。"),
   ("営業のプロ（B2B/B2C）",
    "あなたはB2B/B2Cに精通した営業のプロです。" ++
    "ヒアリング設計、課題深掘り（SPIN）、価値訴求（FABE/ベネフィット）、" ++
    "差別化、反論処理、次アクション合意、クロージングまでを体系的に提案し、" ++
    "トークスクリプト例・質問リスト・KPI/指標・テンプレを具体的に提示してください。" ++
    "顧客セグメントや意思決定者/使用者の切り分けにも触れてください。")]

/-- Python `dict.get(key, default)` over an association list. -/
def dictGet (d : List (String × String)) (k dflt : String) : String :=
  (d.lookup k).getD dflt

/-- `get_session_history` (src/app.py lines 66-70): returns the history for
`session_id`; when the key is absent it first inserts a fresh empty history
into the store. Returns the (possibly updated) store and the history. -/
def get_session_history (store : Store) (session_id : String) : Store × List Msg :=
  match store session_id with
  | none => (Store.set store session_id [], [])
  | some h => (store, h)

/-- The `prompt` template (src/app.py lines 50-56) applied to its inputs:
a system message holding `system_message`, the history messages in stored
order, then a human message holding `input_text`. -/
def promptMessages (system_message : String) (history : List Msg) (input_text : String) : List Msg :=
  Msg.mk Role.system system_message :: (history ++ [Msg.mk Role.human input_text])

/-- The completion client: receives the assembled message sequence, returns
the completion text or fails. Stands for `llm` (ChatOpenAI) behind
`base_chain = prompt | llm`. -/
def LlmClient : Type := List Msg → Except String String

/-- `chain_with_history.invoke` (src/app.py lines 74-79, 91-94):
LangChain `RunnableWithMessageHistory` loads the session history via
`get_session_history` (creating the entry when absent), formats the prompt,
calls the model and — only on success — appends the input human message and
the output assistant message, in that order, to the session history. On
model failure the error propagates and nothing is appended. -/
def chain_with_history_invoke (llm : LlmClient) (store : Store)
    (session_id system_message input_text : String) : Store × Except String String :=
  let s := get_session_history store session_id
  match llm (promptMessages system_message s.2 input_text) with
  | Except.error e => (s.1, Except.error e)
  | Except.ok out =>
      (Store.set s.1 session_id
        (s.2 ++ [Msg.mk Role.human input_text, Msg.mk Role.assistant out]),
       Except.ok out)

/-- Failures of `ask_llm_once`: the two `ValueError`s it raises itself and a
propagated completion-client failure. -/
inductive AskErr where
  | unknownPersona
  | emptyInput
  | llmErr (msg : String)
deriving DecidableEq, Repr

/-- Map the error of an `Except`. -/
def mapErr (f : String → AskErr) : Except String String → Except AskErr String
  | Except.ok a => Except.ok a
  | Except.error e => Except.error (f e)

/-- Persona resolution as performed by `ask_llm_once` (src/app.py lines
85-87): `EXPERT_ROLES.get(role_key, "")`, raising when the result is falsy. -/
def resolvePersona (role_key : String) : Except AskErr String :=
  let system_message := dictGet EXPERT_ROLES role_key ""
  if system_message = "" then Except.error AskErr.unknownPersona
  else Except.ok system_message

/-- `ask_llm_once` (src/app.py lines 84-95): resolve the persona (raise on
unknown role), raise on empty or whitespace-only input, then invoke
`chain_with_history` with the stripped input under `session_id`.
Returns the resulting store and the outcome. -/
def ask_llm_once (llm : LlmClient) (store : Store) (session_id : String)
    (input_text role_key : String) : Store × Except AskErr String :=
  let system_message := dictGet EXPERT_ROLES role_key ""
  if system_message = "" then (store, Except.error AskErr.unknownPersona)
  else if input_text = "" ∨ pyStrip input_text = "" then
    (store, Except.error AskErr.emptyInput)
  else
    let r := chain_with_history_invoke llm store session_id system_message (pyStrip input_text)
    (r.1, mapErr AskErr.llmErr r.2)

/-- The 履歴クリア (clear history) handler (src/app.py lines 129-132):
`history_store.pop(session_id, None)` removes the key when present and is a
no-op otherwise. -/
def clear_session (store : Store) (session_id : String) : Store :=
  fun k => if k = session_id then none else store k

/-- The history expander (src/app.py lines 134-142) reads
`get_session_history(session_id).messages`; like any read it goes through
`get_session_history` and so may create the entry. -/
def listHistory (store : Store) (session_id : String) : Store × List Msg :=
  get_session_history store session_id

/-- Python truthiness of the optional API-key string: `None` and `""` are
falsy. -/
def keyTruthy : Option String → Bool
  | none => false
  | some s => !(s = "")

/-- The API-key lookup (src/app.py lines 15-22): take `os.getenv` when
truthy, otherwise fall back to `st.secrets` when present and truthy
(an exception while reading secrets is swallowed, modelled by `none`). -/
def resolve_api_key (env secretsVal : Option String) : Option String :=
  if keyTruthy env then env
  else
    match secretsVal with
    | some s => if !(s = "") then some s else env
    | none => env

/-- Outcome of the startup check (src/app.py lines 23-27): either the script
shows an error and halts (`st.error` + `st.stop()`) before any input widget
is created, or it runs with the resolved key. -/
inductive StartupOutcome where
  | stopped
  | running (key : String)
deriving DecidableEq, Repr

/-- The startup check (src/app.py lines 14-27) as a function of the two
external configuration sources. -/
def startup (env secretsVal : Option String) : StartupOutcome :=
  match resolve_api_key env secretsVal with
  | none => StartupOutcome.stopped
  | some k => if k = "" then StartupOutcome.stopped else StartupOutcome.running k

/-- One orchestrated call for a run of turns: its completion client outcome,
its input text and its role key. -/
structure CallSpec where
  llm : LlmClient
  input_text : String
  role_key : String

/-- Run a sequence of `ask_llm_once` calls on the same session, threading the
store. -/
def runCalls (session_id : String) : List CallSpec → Store → Store
  | [], store => store
  | c :: rest, store =>
      runCalls session_id rest (ask_llm_once c.llm store session_id c.input_text c.role_key).1

/-- Whether an outcome is a success. -/
def isOkE : Except AskErr String → Bool
  | Except.ok _ => true
  | Except.error _ => false

/-- Every call in the sequence succeeds (each judged on the store produced by
its predecessors). -/
def allSucceed (session_id : String) : List CallSpec → Store → Bool
  | [], _ => true
  | c :: rest, store =>
      let r := ask_llm_once c.llm store session_id c.input_text c.role_key
      isOkE r.2 && allSucceed session_id rest r.1

/-- The history shape after successful turns: human/assistant pairs,
alternating and starting with human. -/
def isUserAssistantPairs : List Msg → Bool
  | [] => true
  | Msg.mk Role.human _ :: Msg.mk Role.assistant _ :: rest => isUserAssistantPairs rest
  | _ => false

/-- A completion client that always fails with message "boom". -/
def llmBoom : LlmClient := fun _ => Except.error "boom"

/-- A completion client that always succeeds with the given reply. -/
def llmConst (reply : String) : LlmClient := fun _ => Except.ok reply

/-- The first registry key (the QA persona). -/
def qaKey : String := "品質保証エンジニア（製造業）"

/-- The second registry key (the sales persona). -/
def salesKey : String := "営業のプロ（B2B/B2C）"

/-! ## Basic lemmas about the embedding -/

theorem pyStrip_empty : pyStrip "" = "" := rfl

theorem roles_lookup_ne_empty (k v : String) (h : EXPERT_ROLES.lookup k = some v) :
    v ≠ "" := by
  simp only [EXPERT_ROLES, List.lookup] at h
  split at h
  · cases h; decide
  · split at h
    · cases h; decide
    · cases h

theorem dictGet_roles_empty_iff (k : String) :
    dictGet EXPERT_ROLES k "" = "" ↔ EXPERT_ROLES.lookup k = none := by
  unfold dictGet
  cases h : EXPERT_ROLES.lookup k with
  | none => simp
  | some v => simp [roles_lookup_ne_empty k v h]

theorem dictGet_roles_of_lookup (k v : String) (h : EXPERT_ROLES.lookup k = some v) :
    dictGet EXPERT_ROLES k "" = v := by
  unfold dictGet
  rw [h]
  rfl

theorem set_self (store : Store) (sid : String) (h : List Msg) :
    Store.set store sid h sid = some h := by
  unfold Store.set
  simp

theorem set_other (store : Store) (sid k : String) (hm : List Msg) (h : k ≠ sid) :
    Store.set store sid hm k = store k := by
  unfold Store.set
  simp [h]

theorem gsh_snd (store : Store) (sid : String) :
    (get_session_history store sid).2 = histOf store sid := by
  unfold get_session_history histOf
  cases hs : store sid <;> simp [hs]

theorem gsh_fst_self (store : Store) (sid : String) :
    (get_session_history store sid).1 sid = some (histOf store sid) := by
  unfold get_session_history histOf Store.set
  cases hs : store sid <;> simp [hs]

theorem gsh_fst_other (store : Store) (sid k : String) (h : k ≠ sid) :
    (get_session_history store sid).1 k = store k := by
  unfold get_session_history Store.set
  cases hs : store sid <;> simp [hs, h]

theorem gsh_histOf (store : Store) (sid k : String) :
    histOf (get_session_history store sid).1 k = histOf store k := by
  by_cases h : k = sid
  · subst h
    unfold histOf
    rw [gsh_fst_self]
    rfl
  · unfold histOf
    rw [gsh_fst_other store sid k h]

theorem chain_snd (llm : LlmClient) (store : Store) (sid instr t : String) :
    (chain_with_history_invoke llm store sid instr t).2
      = llm (promptMessages instr (histOf store sid) t) := by
  simp only [chain_with_history_invoke, gsh_snd]
  cases hr : llm (promptMessages instr (histOf store sid) t) <;> simp [hr]

theorem chain_fst_err (llm : LlmClient) (store : Store) (sid instr t e : String)
    (he : llm (promptMessages instr (histOf store sid) t) = Except.error e) :
    (chain_with_history_invoke llm store sid instr t).1
      = (get_session_history store sid).1 := by
  simp only [chain_with_history_invoke, gsh_snd, he]

theorem chain_fst_ok (llm : LlmClient) (store : Store) (sid instr t out : String)
    (hok : llm (promptMessages instr (histOf store sid) t) = Except.ok out) :
    (chain_with_history_invoke llm store sid instr t).1
      = Store.set (get_session_history store sid).1 sid
          (histOf store sid ++ [Msg.mk Role.human t, Msg.mk Role.assistant out]) := by
  simp only [chain_with_history_invoke, gsh_snd, hok]

theorem ask_unknown (llm : LlmClient) (store : Store) (sid input role : String)
    (h : dictGet EXPERT_ROLES role "" = "") :
    ask_llm_once llm store sid input role = (store, Except.error AskErr.unknownPersona) := by
  simp [ask_llm_once, h]

theorem ask_empty (llm : LlmClient) (store : Store) (sid input role : String)
    (hro : dictGet EXPERT_ROLES role "" ≠ "") (hin : pyStrip input = "") :
    ask_llm_once llm store sid input role = (store, Except.error AskErr.emptyInput) := by
  simp only [ask_llm_once]
  rw [if_neg hro, if_pos (Or.inr hin)]

theorem ask_run (llm : LlmClient) (store : Store) (sid input role instr : String)
    (hro : EXPERT_ROLES.lookup role = some instr) (hin : pyStrip input ≠ "") :
    ask_llm_once llm store sid input role =
      ((chain_with_history_invoke llm store sid instr (pyStrip input)).1,
       mapErr AskErr.llmErr (chain_with_history_invoke llm store sid instr (pyStrip input)).2) := by
  have hd := dictGet_roles_of_lookup role instr hro
  have hne := roles_lookup_ne_empty role instr hro
  have hguard : ¬ (input = "" ∨ pyStrip input = "") := by
    intro h
    apply hin
    cases h with
    | inl h0 => rw [h0]; rfl
    | inr h0 => exact h0
  simp only [ask_llm_once, hd]
  rw [if_neg hne, if_neg hguard]

theorem ask_ok_hist (llm : LlmClient) (store : Store) (sid input role out : String)
    (h : (ask_llm_once llm store sid input role).2 = Except.ok out) :
    histOf (ask_llm_once llm store sid input role).1 sid
      = histOf store sid ++ [Msg.mk Role.human (pyStrip input), Msg.mk Role.assistant out] := by
  cases hd : EXPERT_ROLES.lookup role with
  | none =>
      rw [ask_unknown llm store sid input role ((dictGet_roles_empty_iff role).mpr hd)] at h
      cases h
  | some instr =>
      by_cases hin : pyStrip input = ""
      · have hro : dictGet EXPERT_ROLES role "" ≠ "" := by
          rw [dictGet_roles_of_lookup role instr hd]
          exact roles_lookup_ne_empty role instr hd
        rw [ask_empty llm store sid input role hro hin] at h
        cases h
      · rw [ask_run llm store sid input role instr hd hin] at h ⊢
        rw [chain_snd] at h
        cases hr : llm (promptMessages instr (histOf store sid) (pyStrip input)) with
        | error e => rw [hr] at h; cases h
        | ok o =>
            rw [hr] at h
            have ho : o = out := by
              simpa [mapErr] using h
            subst ho
            show histOf (chain_with_history_invoke llm store sid instr (pyStrip input)).1 sid = _
            rw [chain_fst_ok llm store sid instr (pyStrip input) o hr]
            unfold histOf
            rw [set_self]
            rfl

theorem ask_ok_of_isOk (llm : LlmClient) (store : Store) (sid input role : String)
    (h : isOkE (ask_llm_once llm store sid input role).2 = true) :
    ∃ out, (ask_llm_once llm store sid input role).2 = Except.ok out := by
  cases hr : (ask_llm_once llm store sid input role).2 with
  | ok o => exact ⟨o, rfl⟩
  | error e => rw [hr] at h; simp [isOkE] at h

theorem runCalls_appended (sid : String) (calls : List CallSpec) :
    ∀ store : Store, allSucceed sid calls store = true →
      ∃ app : List Msg,
        histOf (runCalls sid calls store) sid = histOf store sid ++ app ∧
        app.length = 2 * calls.length ∧
        isUserAssistantPairs app = true := by
  induction calls with
  | nil =>
      intro store _
      exact ⟨[], by simp [runCalls], by simp, rfl⟩
  | cons c rest ih =>
      intro store hall
      simp only [allSucceed, Bool.and_eq_true] at hall
      obtain ⟨hok1, hrest⟩ := hall
      obtain ⟨out, hout⟩ := ask_ok_of_isOk c.llm store sid c.input_text c.role_key hok1
      have hh := ask_ok_hist c.llm store sid c.input_text c.role_key out hout
      obtain ⟨app, happ, hlen, hpairs⟩ := ih _ hrest
      refine ⟨Msg.mk Role.human (pyStrip c.input_text) :: Msg.mk Role.assistant out :: app,
        ?_, ?_, ?_⟩
      · simp only [runCalls]
        rw [happ, hh]
        simp
      · simp only [List.length_cons, hlen]
        omega
      · simp [isUserAssistantPairs, hpairs]

/-! ## Claims -/

/-- Claim C1, counterexample. The claim says that whenever `ask_llm_once`
fails the store is exactly as it was before the call. The code violates this:
on a completion-client failure for a session id absent from the store,
`get_session_history` (run by `RunnableWithMessageHistory` before the model
call) has already inserted an empty history entry under that key, so the
store differs (key absent before, present with an empty history after),
even though the call failed and no turn was recorded. -/
theorem C1_store_changed_on_failure_counterexample :
    emptyStore "default" = none ∧
    (ask_llm_once llmBoom emptyStore "default" "hi" qaKey).2
      = Except.error (AskErr.llmErr "boom") ∧
    (ask_llm_once llmBoom emptyStore "default" "hi" qaKey).1 "default" = some [] :=
  ⟨rfl, by rfl, by decide⟩

/-- Claim C1, amended: if `ask_llm_once` fails then no turn is recorded —
every session history reads back with exactly its previous contents, and
every session other than the one addressed is left exactly untouched — and
the failure is propagated unmodified (the two input-validation errors as
raised, a completion-client failure verbatim as `llmErr`); only a possible
fresh empty entry for the addressed session distinguishes the store from its
previous state. -/
theorem C1_no_partial_turn_on_failure (llm : LlmClient) (store : Store)
    (sid input role : String) (e : AskErr)
    (hfail : (ask_llm_once llm store sid input role).2 = Except.error e) :
    (∀ s, histOf (ask_llm_once llm store sid input role).1 s = histOf store s) ∧
    (∀ s, s ≠ sid → (ask_llm_once llm store sid input role).1 s = store s) ∧
    (e = AskErr.unknownPersona ∨ e = AskErr.emptyInput ∨
      ∃ m, e = AskErr.llmErr m ∧
        llm (promptMessages (dictGet EXPERT_ROLES role "") (histOf store sid) (pyStrip input))
          = Except.error m) := by
  cases hd : EXPERT_ROLES.lookup role with
  | none =>
      rw [ask_unknown llm store sid input role ((dictGet_roles_empty_iff role).mpr hd)] at hfail ⊢
      refine ⟨fun s => rfl, fun s _ => rfl, Or.inl ?_⟩
      have he : AskErr.unknownPersona = e := by simpa using hfail
      exact he.symm
  | some instr =>
      by_cases hin : pyStrip input = ""
      · have hro : dictGet EXPERT_ROLES role "" ≠ "" := by
          rw [dictGet_roles_of_lookup role instr hd]
          exact roles_lookup_ne_empty role instr hd
        rw [ask_empty llm store sid input role hro hin] at hfail ⊢
        refine ⟨fun s => rfl, fun s _ => rfl, Or.inr (Or.inl ?_)⟩
        have he : AskErr.emptyInput = e := by simpa using hfail
        exact he.symm
      · rw [ask_run llm store sid input role instr hd hin] at hfail ⊢
        rw [chain_snd] at hfail
        cases hr : llm (promptMessages instr (histOf store sid) (pyStrip input)) with
        | ok o =>
            rw [hr] at hfail
            simp [mapErr] at hfail
        | error m =>
            rw [hr] at hfail
            have he : AskErr.llmErr m = e := by simpa [mapErr] using hfail
            subst he
            refine ⟨?_, ?_, Or.inr (Or.inr ⟨m, rfl, ?_⟩)⟩
            · intro s
              show histOf (chain_with_history_invoke llm store sid instr (pyStrip input)).1 s = _
              rw [chain_fst_err llm store sid instr (pyStrip input) m hr]
              exact gsh_histOf store sid s
            · intro s hs
              show (chain_with_history_invoke llm store sid instr (pyStrip input)).1 s = _
              rw [chain_fst_err llm store sid instr (pyStrip input) m hr]
              exact gsh_fst_other store sid s hs
            · rw [dictGet_roles_of_lookup role instr hd]
              exact hr

/-- Witness for the amended Claim C1 at a concrete failing call. -/
theorem C1_no_partial_turn_on_failure_witness :
    ((ask_llm_once llmBoom emptyStore "default" "hi" qaKey).2
       = Except.error (AskErr.llmErr "boom")) ∧
    histOf (ask_llm_once llmBoom emptyStore "default" "hi" qaKey).1 "other"
      = histOf emptyStore "other" ∧
    (ask_llm_once llmBoom emptyStore "default" "hi" qaKey).1 "other" = emptyStore "other" :=
  ⟨by rfl,
   (C1_no_partial_turn_on_failure llmBoom emptyStore "default" "hi" qaKey
      (AskErr.llmErr "boom") (by rfl)).1 "other",
   (C1_no_partial_turn_on_failure llmBoom emptyStore "default" "hi" qaKey
      (AskErr.llmErr "boom") (by rfl)).2.1 "other" (by decide)⟩

/-- Claim C2: after any sequence of successful `ask_llm_once` calls on the
same (initially empty) session, the stored history has length exactly twice
the number of calls and alternates human/assistant starting with human; and
each successful call appends the user turn then the assistant turn, in that
order. -/
theorem C2_history_length_and_alternation (sid : String) (calls : List CallSpec)
    (store : Store) (hfresh : histOf store sid = [])
    (hall : allSucceed sid calls store = true) :
    (histOf (runCalls sid calls store) sid).length = 2 * calls.length ∧
    isUserAssistantPairs (histOf (runCalls sid calls store) sid) = true ∧
    ∀ (llm : LlmClient) (st : Store) (inp role out : String),
      (ask_llm_once llm st sid inp role).2 = Except.ok out →
      histOf (ask_llm_once llm st sid inp role).1 sid
        = histOf st sid ++ [Msg.mk Role.human (pyStrip inp), Msg.mk Role.assistant out] := by
  obtain ⟨app, happ, hlen, hpairs⟩ := runCalls_appended sid calls store hall
  rw [happ, hfresh]
  exact ⟨by simpa using hlen, by simpa using hpairs,
    fun llm st inp role out h => ask_ok_hist llm st sid inp role out h⟩

/-- Witness for Claim C2 at a concrete single-call run. -/
theorem C2_history_length_and_alternation_witness :
    histOf emptyStore "default" = [] ∧
    allSucceed "default" [CallSpec.mk (llmConst "r1") "1" qaKey] emptyStore = true ∧
    (histOf (runCalls "default" [CallSpec.mk (llmConst "r1") "1" qaKey] emptyStore)
        "default").length
      = 2 * ([CallSpec.mk (llmConst "r1") "1" qaKey] : List CallSpec).length ∧
    isUserAssistantPairs
      (histOf (runCalls "default" [CallSpec.mk (llmConst "r1") "1" qaKey] emptyStore)
        "default") = true :=
  ⟨rfl, by rfl,
   (C2_history_length_and_alternation "default" [CallSpec.mk (llmConst "r1") "1" qaKey]
      emptyStore rfl (by rfl)).1,
   (C2_history_length_and_alternation "default" [CallSpec.mk (llmConst "r1") "1" qaKey]
      emptyStore rfl (by rfl)).2.1⟩

theorem chain_congr (llm llm2 : LlmClient) (store : Store) (sid instr t : String)
    (h : llm2 (promptMessages instr (histOf store sid) t)
          = llm (promptMessages instr (histOf store sid) t)) :
    chain_with_history_invoke llm2 store sid instr t
      = chain_with_history_invoke llm store sid instr t := by
  simp only [chain_with_history_invoke, gsh_snd, h]

/-- Claim C3: with a resolved persona and non-empty input, the message
sequence handed to the completion client is exactly one system message equal
to the instruction, then one message per stored turn in stored order with
its role tag, then one final human message equal to the trimmed input; the
history used is the pre-turn history, and the outcome of `ask_llm_once`
depends on the completion client only through its answer to exactly that
sequence. -/
theorem C3_message_sequence_sent (llm : LlmClient) (store : Store)
    (sid input role instr : String)
    (hro : EXPERT_ROLES.lookup role = some instr) (hin : pyStrip input ≠ "") :
    promptMessages instr (histOf store sid) (pyStrip input)
      = Msg.mk Role.system instr
          :: (histOf store sid ++ [Msg.mk Role.human (pyStrip input)]) ∧
    (ask_llm_once llm store sid input role).2
      = mapErr AskErr.llmErr (llm (promptMessages instr (histOf store sid) (pyStrip input))) ∧
    (∀ llm2 : LlmClient,
      llm2 (promptMessages instr (histOf store sid) (pyStrip input))
        = llm (promptMessages instr (histOf store sid) (pyStrip input)) →
      ask_llm_once llm2 store sid input role = ask_llm_once llm store sid input role) := by
  refine ⟨rfl, ?_, ?_⟩
  · rw [ask_run llm store sid input role instr hro hin]
    rw [chain_snd]
  · intro llm2 h
    rw [ask_run llm store sid input role instr hro hin,
        ask_run llm2 store sid input role instr hro hin,
        chain_congr llm llm2 store sid instr (pyStrip input) h]

/-- Witness for Claim C3: a concrete two-turn scenario in which the request
for turn 2 is exactly [system:A, human:1, assistant:r1, human:2]. -/
theorem C3_message_sequence_sent_witness :
    EXPERT_ROLES.lookup qaKey = some (dictGet EXPERT_ROLES qaKey "x") ∧
    pyStrip "2" ≠ "" ∧
    promptMessages (dictGet EXPERT_ROLES qaKey "x")
        (histOf (runCalls "default" [CallSpec.mk (llmConst "r1") "1" qaKey] emptyStore)
          "default") (pyStrip "2")
      = Msg.mk Role.system (dictGet EXPERT_ROLES qaKey "x")
          :: (histOf (runCalls "default" [CallSpec.mk (llmConst "r1") "1" qaKey] emptyStore)
                "default" ++ [Msg.mk Role.human (pyStrip "2")]) ∧
    histOf (runCalls "default" [CallSpec.mk (llmConst "r1") "1" qaKey] emptyStore) "default"
      = [Msg.mk Role.human "1", Msg.mk Role.assistant "r1"] :=
  ⟨by decide, by decide,
   (C3_message_sequence_sent (llmConst "r2")
      (runCalls "default" [CallSpec.mk (llmConst "r1") "1" qaKey] emptyStore)
      "default" "2" qaKey (dictGet EXPERT_ROLES qaKey "x") (by decide) (by decide)).1,
   by decide⟩

/-- Claim C4: with a resolved persona, `ask_llm_once` fails with the
empty-input error exactly when the input is empty or whitespace-only after
trimming; otherwise the trimmed input is what reaches the prompt, so
"  hi  " becomes the human message text "hi". -/
theorem C4_empty_input_iff (llm : LlmClient) (store : Store) (sid input role : String)
    (hro : (EXPERT_ROLES.lookup role).isSome = true) :
    ((ask_llm_once llm store sid input role).2 = Except.error AskErr.emptyInput
       ↔ pyStrip input = "") ∧
    (pyStrip input ≠ "" →
      (ask_llm_once llm store sid input role).2
        = mapErr AskErr.llmErr
            (llm (promptMessages (dictGet EXPERT_ROLES role "") (histOf store sid)
                   (pyStrip input)))) ∧
    pyStrip "  hi  " = "hi" ∧ pyStrip "  " = "" := by
  obtain ⟨instr, hd⟩ : ∃ v, EXPERT_ROLES.lookup role = some v := by
    cases hl : EXPERT_ROLES.lookup role with
    | none => simp [hl] at hro
    | some v => exact ⟨v, rfl⟩
  have hne : dictGet EXPERT_ROLES role "" ≠ "" := by
    rw [dictGet_roles_of_lookup role instr hd]
    exact roles_lookup_ne_empty role instr hd
  refine ⟨⟨?_, ?_⟩, ?_, by decide, rfl⟩
  · intro h
    by_contra hin
    rw [ask_run llm store sid input role instr hd hin, chain_snd] at h
    cases hr : llm (promptMessages instr (histOf store sid) (pyStrip input)) with
    | ok o => rw [hr] at h; simp [mapErr] at h
    | error m => rw [hr] at h; simp [mapErr] at h
  · intro hin
    rw [ask_empty llm store sid input role hne hin]
  · intro hin
    rw [ask_run llm store sid input role instr hd hin, chain_snd,
        dictGet_roles_of_lookup role instr hd]

/-- Witness for Claim C4 at a concrete call with input "  hi  ". -/
theorem C4_empty_input_iff_witness :
    (EXPERT_ROLES.lookup qaKey).isSome = true ∧
    (((ask_llm_once (llmConst "r") emptyStore "default" "  hi  " qaKey).2
        = Except.error AskErr.emptyInput) ↔ pyStrip "  hi  " = "") ∧
    (ask_llm_once (llmConst "r") emptyStore "default" "  hi  " qaKey).2
      = mapErr AskErr.llmErr
          (llmConst "r" (promptMessages (dictGet EXPERT_ROLES qaKey "")
             (histOf emptyStore "default") (pyStrip "  hi  "))) ∧
    pyStrip "  hi  " = "hi" :=
  ⟨by decide,
   (C4_empty_input_iff (llmConst "r") emptyStore "default" "  hi  " qaKey (by decide)).1,
   (C4_empty_input_iff (llmConst "r") emptyStore "default" "  hi  " qaKey (by decide)).2.1
     (by decide),
   (C4_empty_input_iff (llmConst "r") emptyStore "default" "  hi  " qaKey (by decide)).2.2.1⟩

/-- Claim C5: persona resolution fails with the unknown-persona error exactly
when the key is absent from the registry; every key present in the registry
resolves to its exact instruction string unchanged; and an absent key is
never silently defaulted — `ask_llm_once` on an absent key returns the
unknown-persona error with the store untouched, issuing no request. -/
theorem C5_persona_resolution (k : String) :
    (resolvePersona k = Except.error AskErr.unknownPersona
       ↔ EXPERT_ROLES.lookup k = none) ∧
    (∀ instr, EXPERT_ROLES.lookup k = some instr → resolvePersona k = Except.ok instr) ∧
    (∀ (llm : LlmClient) (store : Store) (sid input : String),
      EXPERT_ROLES.lookup k = none →
      ask_llm_once llm store sid input k = (store, Except.error AskErr.unknownPersona)) := by
  refine ⟨⟨?_, ?_⟩, ?_, ?_⟩
  · intro h
    cases hl : EXPERT_ROLES.lookup k with
    | none => rfl
    | some v =>
        have hd := dictGet_roles_of_lookup k v hl
        have hv := roles_lookup_ne_empty k v hl
        unfold resolvePersona at h
        rw [hd, if_neg hv] at h
        cases h
  · intro h
    unfold resolvePersona
    rw [(dictGet_roles_empty_iff k).mpr h]
    simp
  · intro instr h
    unfold resolvePersona
    rw [dictGet_roles_of_lookup k instr h, if_neg (roles_lookup_ne_empty k instr h)]
  · intro llm store sid input h
    exact ask_unknown llm store sid input k ((dictGet_roles_empty_iff k).mpr h)

/-- Witness for Claim C5 at an absent key and at a present key. -/
theorem C5_persona_resolution_witness :
    EXPERT_ROLES.lookup "nonexistent-role" = none ∧
    resolvePersona "nonexistent-role" = Except.error AskErr.unknownPersona ∧
    EXPERT_ROLES.lookup qaKey = some ((EXPERT_ROLES.lookup qaKey).getD "") ∧
    resolvePersona qaKey = Except.ok ((EXPERT_ROLES.lookup qaKey).getD "") ∧
    ask_llm_once (llmConst "r") emptyStore "default" "hi" "nonexistent-role"
      = (emptyStore, Except.error AskErr.unknownPersona) :=
  ⟨by decide,
   (C5_persona_resolution "nonexistent-role").1.mpr (by decide),
   by decide,
   (C5_persona_resolution qaKey).2.1 ((EXPERT_ROLES.lookup qaKey).getD "") (by decide),
   (C5_persona_resolution "nonexistent-role").2.2 (llmConst "r") emptyStore "default" "hi"
     (by decide)⟩

/-- Claim C6: the clear handler removes the session key entirely, so a
subsequent listHistory read returns the empty sequence; clearing twice
equals clearing once; and clearing an already-absent session is a no-op,
not an error. -/
theorem C6_clear_semantics (store : Store) (sid : String) :
    clear_session store sid sid = none ∧
    (listHistory (clear_session store sid) sid).2 = [] ∧
    (∀ k, clear_session (clear_session store sid) sid k = clear_session store sid k) ∧
    (store sid = none → ∀ k, clear_session store sid k = store k) := by
  refine ⟨?_, ?_, ?_, ?_⟩
  · unfold clear_session
    simp
  · unfold listHistory
    rw [gsh_snd]
    unfold histOf
    have h : clear_session store sid sid = none := by
      unfold clear_session
      simp
    rw [h]
    rfl
  · intro k
    unfold clear_session
    by_cases h : k = sid <;> simp [h]
  · intro h k
    unfold clear_session
    by_cases hk : k = sid
    · subst hk
      simp [h]
    · simp [hk]

/-- Witness for Claim C6 at a concrete store holding one turn under "a". -/
theorem C6_clear_semantics_witness :
    clear_session (Store.set emptyStore "a" [Msg.mk Role.human "x"]) "a" "a" = none ∧
    (listHistory (clear_session (Store.set emptyStore "a" [Msg.mk Role.human "x"]) "a")
        "a").2 = [] ∧
    clear_session (clear_session (Store.set emptyStore "a" [Msg.mk Role.human "x"]) "a")
        "a" "b"
      = clear_session (Store.set emptyStore "a" [Msg.mk Role.human "x"]) "a" "b" ∧
    emptyStore "a" = none ∧
    clear_session emptyStore "a" "b" = emptyStore "b" :=
  ⟨(C6_clear_semantics (Store.set emptyStore "a" [Msg.mk Role.human "x"]) "a").1,
   (C6_clear_semantics (Store.set emptyStore "a" [Msg.mk Role.human "x"]) "a").2.1,
   (C6_clear_semantics (Store.set emptyStore "a" [Msg.mk Role.human "x"]) "a").2.2.1 "b",
   rfl,
   (C6_clear_semantics emptyStore "a").2.2.2 rfl "b"⟩

/-- Claim C7: histories of distinct sessions are independent — clearing one
session leaves the other session entry (and hence its listHistory contents)
unchanged, and a turn under one session (like a history read under it)
leaves the other session entry unchanged. -/
theorem C7_session_independence (store : Store) (s1 s2 : String) (h : s1 ≠ s2) :
    clear_session store s1 s2 = store s2 ∧
    (∀ (llm : LlmClient) (input role : String),
      (ask_llm_once llm store s1 input role).1 s2 = store s2) ∧
    (get_session_history store s1).1 s2 = store s2 ∧
    (listHistory (clear_session store s1) s2).2 = (listHistory store s2).2 := by
  have h21 : s2 ≠ s1 := fun he => h he.symm
  refine ⟨?_, ?_, ?_, ?_⟩
  · unfold clear_session
    simp [h21]
  · intro llm input role
    cases hd : EXPERT_ROLES.lookup role with
    | none =>
        rw [ask_unknown llm store s1 input role ((dictGet_roles_empty_iff role).mpr hd)]
    | some instr =>
        by_cases hin : pyStrip input = ""
        · have hro : dictGet EXPERT_ROLES role "" ≠ "" := by
            rw [dictGet_roles_of_lookup role instr hd]
            exact roles_lookup_ne_empty role instr hd
          rw [ask_empty llm store s1 input role hro hin]
        · rw [ask_run llm store s1 input role instr hd hin]
          show (chain_with_history_invoke llm store s1 instr (pyStrip input)).1 s2 = store s2
          cases hr : llm (promptMessages instr (histOf store s1) (pyStrip input)) with
          | error m =>
              rw [chain_fst_err llm store s1 instr (pyStrip input) m hr]
              exact gsh_fst_other store s1 s2 h21
          | ok o =>
              rw [chain_fst_ok llm store s1 instr (pyStrip input) o hr]
              rw [set_other _ s1 s2 _ h21]
              exact gsh_fst_other store s1 s2 h21
  · exact gsh_fst_other store s1 s2 h21
  · unfold listHistory
    rw [gsh_snd, gsh_snd]
    unfold histOf
    have hc : clear_session store s1 s2 = store s2 := by
      unfold clear_session
      simp [h21]
    rw [hc]

/-- Witness for Claim C7 with sessions "a" and "b". -/
theorem C7_session_independence_witness :
    "a" ≠ "b" ∧
    clear_session (Store.set emptyStore "b" [Msg.mk Role.human "y"]) "a" "b"
      = Store.set emptyStore "b" [Msg.mk Role.human "y"] "b" ∧
    (ask_llm_once (llmConst "r") (Store.set emptyStore "b" [Msg.mk Role.human "y"])
        "a" "hi" qaKey).1 "b"
      = Store.set emptyStore "b" [Msg.mk Role.human "y"] "b" :=
  ⟨by decide,
   (C7_session_independence (Store.set emptyStore "b" [Msg.mk Role.human "y"]) "a" "b"
      (by decide)).1,
   (C7_session_independence (Store.set emptyStore "b" [Msg.mk Role.human "y"]) "a" "b"
      (by decide)).2.1 (llmConst "r") "hi" qaKey⟩

/-- Claim C8: when no API key is available from either configured source
(environment/.env and secrets both absent or empty), the startup check
signals the missing configuration and stops the script (st.error followed by
st.stop, both before any input widget is created): a fatal startup
condition, never a per-request error. -/
theorem C8_missing_key_stops_startup (env secretsVal : Option String)
    (henv : keyTruthy env = false) (hsec : keyTruthy secretsVal = false) :
    startup env secretsVal = StartupOutcome.stopped := by
  cases env with
  | none =>
      cases secretsVal with
      | none => rfl
      | some s =>
          have hs : s = "" := by simpa [keyTruthy] using hsec
          subst hs
          rfl
  | some t =>
      have ht : t = "" := by simpa [keyTruthy] using henv
      subst ht
      cases secretsVal with
      | none => rfl
      | some s =>
          have hs : s = "" := by simpa [keyTruthy] using hsec
          subst hs
          rfl

/-- Witness for Claim C8 with no environment key and an empty secrets key. -/
theorem C8_missing_key_stops_startup_witness :
    keyTruthy none = false ∧ keyTruthy (some "") = false ∧
    startup none (some "") = StartupOutcome.stopped :=
  ⟨rfl, by decide, C8_missing_key_stops_startup none (some "") rfl (by decide)⟩

/-- Claim C9: reading a session history is not side-effect-free — for an
absent session id, `get_session_history` inserts a fresh empty entry under
the key and returns the empty history; a subsequent get for the same key
returns that same entry without further change; and a get on a key that is
present (in particular one just created, or re-created after a clear)
returns the store unchanged together with that entry. -/
theorem C9_get_creates_entry (store : Store) (sid : String) (h : store sid = none) :
    (get_session_history store sid).1 sid = some [] ∧
    (get_session_history store sid).2 = [] ∧
    get_session_history (get_session_history store sid).1 sid
      = ((get_session_history store sid).1, []) ∧
    (∀ (st2 : Store) (hh : List Msg), st2 sid = some hh →
      get_session_history st2 sid = (st2, hh)) ∧
    (get_session_history (clear_session store sid) sid).1 sid = some [] := by
  have h1 : (get_session_history store sid).1 sid = some [] := by
    unfold get_session_history
    rw [h]
    exact set_self store sid []
  have hpresent : ∀ (st2 : Store) (hh : List Msg), st2 sid = some hh →
      get_session_history st2 sid = (st2, hh) := by
    intro st2 hh hst
    unfold get_session_history
    rw [hst]
  refine ⟨h1, ?_, ?_, hpresent, ?_⟩
  · rw [gsh_snd]
    unfold histOf
    rw [h]
    rfl
  · exact hpresent (get_session_history store sid).1 [] h1
  · have hc : clear_session store sid sid = none := by
      unfold clear_session
      simp
    unfold get_session_history
    rw [hc]
    exact set_self (clear_session store sid) sid []

/-- Witness for Claim C9 at the absent session id "s" of the empty store. -/
theorem C9_get_creates_entry_witness :
    emptyStore "s" = none ∧
    (get_session_history emptyStore "s").1 "s" = some [] ∧
    (get_session_history emptyStore "s").2 = [] ∧
    (get_session_history (clear_session emptyStore "s") "s").1 "s" = some [] :=
  ⟨rfl,
   (C9_get_creates_entry emptyStore "s" rfl).1,
   (C9_get_creates_entry emptyStore "s" rfl).2.1,
   (C9_get_creates_entry emptyStore "s" rfl).2.2.2.2⟩

/-- Claim C10: error precedence — with an unknown persona key the
unknown-persona error is returned no matter the input (in particular when
the input is also empty or whitespace-only: the persona check runs first),
and with a known persona and empty input the empty-input error is returned;
in either error case the result is the same for every completion client and
the store is untouched, so no completion request is issued. -/
theorem C10_error_precedence (store : Store) (sid input role : String) :
    (EXPERT_ROLES.lookup role = none →
      ∀ llm : LlmClient,
        ask_llm_once llm store sid input role
          = (store, Except.error AskErr.unknownPersona)) ∧
    (EXPERT_ROLES.lookup role ≠ none → pyStrip input = "" →
      ∀ llm : LlmClient,
        ask_llm_once llm store sid input role
          = (store, Except.error AskErr.emptyInput)) := by
  constructor
  · intro h llm
    exact ask_unknown llm store sid input role ((dictGet_roles_empty_iff role).mpr h)
  · intro h hin llm
    cases hl : EXPERT_ROLES.lookup role with
    | none => exact absurd hl h
    | some v =>
        have hro : dictGet EXPERT_ROLES role "" ≠ "" := by
          rw [dictGet_roles_of_lookup role v hl]
          exact roles_lookup_ne_empty role v hl
        exact ask_empty llm store sid input role hro hin

/-- Witness for Claim C10: an unknown key together with whitespace-only
input yields the unknown-persona error; a known key with the same input
yields the empty-input error. -/
theorem C10_error_precedence_witness :
    EXPERT_ROLES.lookup "nonexistent-role" = none ∧
    pyStrip "  " = "" ∧
    ask_llm_once llmBoom emptyStore "default" "  " "nonexistent-role"
      = (emptyStore, Except.error AskErr.unknownPersona) ∧
    EXPERT_ROLES.lookup qaKey ≠ none ∧
    ask_llm_once llmBoom emptyStore "default" "  " qaKey
      = (emptyStore, Except.error AskErr.emptyInput) :=
  ⟨by decide, rfl,
   (C10_error_precedence emptyStore "default" "  " "nonexistent-role").1 (by decide) llmBoom,
   by decide,
   (C10_error_precedence emptyStore "default" "  " qaKey).2 (by decide) rfl llmBoom⟩
